import Mathlib

/-
Shallow embedding of the BLE test harness in testing/mobly/ble_utils.py.

Events delivered to a mobly callback handler are modelled as a list, in
arrival order, of the events that arrive within the relevant observation
window; a blocking wait that finds no matching event in the list is the
timeout case.  Python dict payloads are modelled by the Value type below,
and subscripting a missing key is a KeyError, as in Python.
-/

/-- A JSON-like value standing for the Python data payloads that mobly
delivers with each callback event. -/
inductive Value where
  | str (s : String)
  | int (n : Int)
  | bool (b : Bool)
  | list (xs : List Value)
  | obj (fields : List (String × Value))

/-- One callback event: a name plus a dict payload (mobly CallbackEvent). -/
structure Event where
  name : String
  data : List (String × Value)

/-- The ways a phase can fail: a mobly assertion failure, a mobly wait
timeout, and the Python exceptions that malformed payloads would raise. -/
inductive Failure where
  | assertionError (msg : String)
  | timeoutError (event : String)
  | keyError (key : String)
  | typeError (msg : String)
  | attributeError (attr : String)
  deriving DecidableEq, Repr

/-- First value bound to a key in a dict, Python dicts having unique keys. -/
def lookupKey : List (String × Value) → String → Option Value
  | [], _ => none
  | (k, v) :: rest, key => if k == key then some v else lookupKey rest key

/-- Python subscript d[k] on an event payload: KeyError when absent. -/
def dictGet (d : List (String × Value)) (k : String) : Except Failure Value :=
  match lookupKey d k with
  | some v => Except.ok v
  | none => Except.error (Failure.keyError k)

/-- Python subscript v[k] on a nested value. -/
def Value.sub (v : Value) (k : String) : Except Failure Value :=
  match v with
  | Value.obj fields => dictGet fields k
  | _ => Except.error (Failure.typeError k)

/-- Python iteration over a value that the code expects to be a list. -/
def Value.items : Value → Except Failure (List Value)
  | Value.list xs => Except.ok xs
  | _ => Except.error (Failure.typeError "not a list")

/-- Python equality test between a payload value and a string constant:
equal exactly when the value is that string (a non-string compares False). -/
def Value.eqStr : Value → String → Bool
  | Value.str a, b => a == b
  | _, _ => false

/-- Observer: d[k] exists and equals the string s. -/
def checkEqStr (d : List (String × Value)) (k s : String) : Bool :=
  match lookupKey d k with
  | some v => v.eqStr s
  | none => false

/-- Remove the first event with the given name from the queue, keeping the
rest in order; none when no such event is queued. -/
def popFirst (name : String) : List Event → Option (Event × List Event)
  | [] => none
  | e :: rest =>
      if e.name == name then some (e, rest)
      else
        match popFirst name rest with
        | some (r, rest2) => some (r, e :: rest2)
        | none => none

/-- mobly waitAndGet: consume the first event with the given name, or raise
TimeoutError when none arrives within the window (modelled as: none is in
the queue).  The timeout argument records what the call site passes; none
means the call site passes no explicit timeout. -/
def waitAndGet (q : List Event) (name : String) (_timeout : Option Nat) :
    Except Failure (Event × List Event) :=
  match popFirst name q with
  | some r => Except.ok r
  | none => Except.error (Failure.timeoutError name)

/-- mobly waitForEvent: the first event with the given name satisfying the
predicate, or TimeoutError when no such event arrives within the window. -/
def waitForEvent (q : List Event) (name : String) (pred : Event → Bool)
    (_timeout : Nat) : Except Failure Event :=
  match q.find? (fun e => e.name == name && pred e) with
  | some e => Except.ok e
  | none => Except.error (Failure.timeoutError name)

/-- mobly getAll: return and remove every queued event with the given name,
in order; non-blocking. -/
def getAll (q : List Event) (name : String) : List Event × List Event :=
  (q.filter (fun e => e.name == name), q.filter (fun e => e.name != name))

/-- How many events with this name the queue holds. -/
def countName (q : List Event) (name : String) : Nat :=
  (q.filter (fun e => e.name == name)).length

/-- Whether the queue holds at least one event with this name. -/
def hasEvent (q : List Event) (name : String) : Bool :=
  q.any (fun e => e.name == name)

/-- mobly asserts.assert_true. -/
def assertTrue (b : Bool) (msg : String) : Except Failure Unit :=
  if b then Except.ok () else Except.error (Failure.assertionError msg)

-- Fixture constants of ble_utils.py (lines 13-36).

def ADVERTISING_TIME : Nat := 120

def ADVERTISING_START_TIME : Nat := 30

def SCAN_TIMEOUT : Nat := 20

def CONNECTION_TIMEOUT : Nat := 60

def TEST_BLE_SERVICE_UUID : String := "0000fe23-0000-1000-8000-00805f9b34fb"

def TEST_WRITE_UUID : String := "0000e632-0000-1000-8000-00805f9b34fb"

def TEST_SECOND_WRITE_UUID : String := "0000e633-0000-1000-8000-00805f9b34fb"

def TEST_READ_UUID : String := "0000e631-0000-1000-8000-00805f9b34fb"

def TEST_SECOND_READ_UUID : String := "0000e634-0000-1000-8000-00805f9b34fb"

def TEST_THIRD_READ_UUID : String := "0000e635-0000-1000-8000-00805f9b34fb"

def TEST_SCAN_RESPONSE_UUID : String := "0000e639-0000-1000-8000-00805f9b34fb"

-- String macros of ble_utils.py lines 117-121.

def UUID : String := "UUID"

def GATT_SUCCESS : String := "GATT_SUCCESS"

def STATE : String := "newState"

def STATUS : String := "status"

/-- The per-run random payload fixtures (ble_utils.py lines 44-57 draw them
with rand_ascii_str, so they are arbitrary but fixed for a session). -/
structure Fixtures where
  DATA : String
  SCAN_RESPONSE_DATA : String
  READ_DATA : String
  SECOND_READ_DATA : String
  THIRD_READ_DATA : String
  WRITE_DATA : String
  SECOND_WRITE_DATA : String

/-- The characteristic UUIDs of the SERVICE fixture, in its list order
(ble_utils.py lines 106-116): the comprehension over
SERVICE Characteristics yields exactly these. -/
def SERVICE_CHARACTERISTIC_UUIDS : List String :=
  [TEST_WRITE_UUID, TEST_SECOND_WRITE_UUID, TEST_READ_UUID,
   TEST_SECOND_READ_UUID, TEST_THIRD_READ_UUID]

/-- The device commands a phase issues through the snippet client, in
issuance order. -/
inductive Command where
  | bleStartAdvertising
  | bleStartScan
  | bleStartServer
  | bleConnectGatt (address : Value)
  | bleDiscoverServices
  | bleReadOperation (serviceUuid charUuid : String)
  | bleWriteOperation (serviceUuid charUuid : String) (data : String)

/-- Count of bleStartAdvertising commands in an issuance log. -/
def countStartAdvertising (log : List Command) : Nat :=
  (log.filter (fun c =>
    match c with
    | Command.bleStartAdvertising => true
    | _ => false)).length

-- Discover phase (ble_utils.py lines 132-218).

/-- IsRequiredScanResult (ble_utils.py lines 124-129): the scan result
carries a service entry with the test service UUID and the advertise
payload.  Used as the waitForEvent predicate, so modelled as a Bool with
malformed payloads not matching. -/
def IsRequiredScanResult (fx : Fixtures) (scanResult : Event) : Bool :=
  match lookupKey scanResult.data "result" with
  | none => false
  | some result =>
      match result.sub "ScanRecord" with
      | Except.error _ => false
      | Except.ok record =>
          match record.sub "Services" with
          | Except.error _ => false
          | Except.ok services =>
              match services.items with
              | Except.error _ => false
              | Except.ok xs =>
                  xs.any (fun service =>
                    match service.sub UUID with
                    | Except.error _ => false
                    | Except.ok u =>
                        u.eqStr TEST_BLE_SERVICE_UUID &&
                          (match service.sub "Data" with
                           | Except.error _ => false
                           | Except.ok d => d.eqStr fx.DATA))

/-- The advertising retry loop of Discover (ble_utils.py lines 156-193).
Each attempt issues bleStartAdvertising and bleStartScan and then polls
its fresh advertise callback for up to ADVERTISING_START_TIME seconds;
success of an attempt means an onStartSuccess event arrives within that
window, modelled as membership in that attempt input list (an
onStartFailure event only logs a warning, line 167-171).  remaining
counts the current attempt plus those still to come, so remaining = 0
inside the successor branch means the final attempt.  Note the source
loop body ends without breaking out of the attempt loop when success is
observed, so the next attempt re-issues both start commands; only the
final attempt raises TimeoutError when its window elapses. -/
def advertiseAttempts (attemptEvents : Nat → List Event) :
    Nat → Nat → List Command → List Command × Except Failure Unit
  | _, 0, log => (log, Except.ok ())
  | attemptNum, remaining + 1, log =>
      let log2 := log ++ [Command.bleStartAdvertising, Command.bleStartScan]
      let success := hasEvent (attemptEvents attemptNum) "onStartSuccess"
      if success then
        advertiseAttempts attemptEvents (attemptNum + 1) remaining log2
      else if 0 < remaining then
        -- attempt_num < max_attempts - 1: warn and retry (lines 182-187)
        advertiseAttempts attemptEvents (attemptNum + 1) remaining log2
      else
        (log2, Except.error (Failure.timeoutError "onStartSuccess"))

/-- max_attempts local of Discover (ble_utils.py line 157). -/
def max_attempts : Nat := 2

/-- Result state Discover leaves on the scanner: the connect_to_address
attribute (none when never assigned) and the returned scan result dict. -/
structure DiscoverOut where
  connect_to_address : Option Value
  result : Value

/-- The loop over result ScanRecord Services (ble_utils.py lines 204-212),
threading scan_success, scan_response_found and the stored address. -/
def scanLoop (fx : Fixtures) (result : Value) :
    List Value → Bool → Bool → Option Value →
    Except Failure (Bool × Bool × Option Value)
  | [], scanSuccess, scanResponseFound, addr =>
      Except.ok (scanSuccess, scanResponseFound, addr)
  | service :: rest, scanSuccess, scanResponseFound, addr =>
      match service.sub UUID with
      | Except.error e => Except.error e
      | Except.ok u =>
          -- line 205: service[UUID] == TEST_BLE_SERVICE_UUID and
          -- service[Data] == DATA, with Python short-circuit on the and
          match (if u.eqStr TEST_BLE_SERVICE_UUID then
                   match service.sub "Data" with
                   | Except.error e => Except.error e
                   | Except.ok d => Except.ok (d.eqStr fx.DATA)
                 else Except.ok false) with
          | Except.error e => Except.error e
          | Except.ok isService =>
              match (if isService then
                       -- line 206: scanner.connect_to_address =
                       --   result[Device][Address]
                       match result.sub "Device" with
                       | Except.error e => Except.error e
                       | Except.ok device =>
                           match device.sub "Address" with
                           | Except.error e => Except.error e
                           | Except.ok a => Except.ok (true, some a)
                     else Except.ok (scanSuccess, addr)) with
              | Except.error e => Except.error e
              | Except.ok (scanSuccess2, addr2) =>
                  -- lines 208-212: the scan response entry check, again
                  -- with short-circuit; u is the same subscript value
                  match (if u.eqStr TEST_SCAN_RESPONSE_UUID then
                           match service.sub "Data" with
                           | Except.error e => Except.error e
                           | Except.ok d =>
                               Except.ok (d.eqStr fx.SCAN_RESPONSE_DATA)
                         else Except.ok false) with
                  | Except.error e => Except.error e
                  | Except.ok isResponse =>
                      scanLoop fx result rest scanSuccess2
                        (scanResponseFound || isResponse) addr2

/-- The scan half of Discover, after the advertising loop (ble_utils.py
lines 196-218): waitForEvent with IsRequiredScanResult within
SCAN_TIMEOUT, then the service loop and the two assertions. -/
def discoverScan (fx : Fixtures) (scanEvents : List Event) :
    Except Failure DiscoverOut :=
  match waitForEvent scanEvents "onScanResult" (IsRequiredScanResult fx)
      SCAN_TIMEOUT with
  | Except.error e => Except.error e
  | Except.ok scanResult =>
      match dictGet scanResult.data "result" with
      | Except.error e => Except.error e
      | Except.ok result =>
          -- line 203: the StartToResultTimeDeltaMs metric is read here
          match dictGet scanResult.data "StartToResultTimeDeltaMs" with
          | Except.error e => Except.error e
          | Except.ok _timeMs =>
              match result.sub "ScanRecord" with
              | Except.error e => Except.error e
              | Except.ok record =>
                  match record.sub "Services" with
                  | Except.error e => Except.error e
                  | Except.ok servicesVal =>
                      match servicesVal.items with
                      | Except.error e => Except.error e
                      | Except.ok services =>
                          match scanLoop fx result services false false
                              none with
                          | Except.error e => Except.error e
                          | Except.ok (scanSuccess, scanResponseFound,
                              addr) =>
                              match assertTrue scanSuccess
                                  "Advertiser is not found inside SCAN_TIMEOUT seconds" with
                              | Except.error e => Except.error e
                              | Except.ok _ =>
                                  match assertTrue scanResponseFound
                                      "Scan response is not found" with
                                  | Except.error e => Except.error e
                                  | Except.ok _ =>
                                      Except.ok ⟨addr, result⟩

/-- Input to the Discover phase: for each attempt number, the events that
arrive on that attempt advertise callback within its window, and the
events that arrive on the final scan callback within the scan window. -/
structure DiscoverInput where
  attemptEvents : Nat → List Event
  scanEvents : List Event

/-- Discover (ble_utils.py lines 132-218): the advertising retry loop
followed by the scan wait and assertions.  Returns the issued command log
together with the outcome. -/
def Discover (fx : Fixtures) (inp : DiscoverInput) :
    List Command × Except Failure DiscoverOut :=
  match advertiseAttempts inp.attemptEvents 0 max_attempts [] with
  | (log, Except.error e) => (log, Except.error e)
  | (log, Except.ok _) => (log, discoverScan fx inp.scanEvents)

-- Connect phase (ble_utils.py lines 329-387).

/-- Input to the Connect phase: the connect_to_address attribute the
scanner carries (none when no Discover has set it), and the event queues
of the fresh server and client callbacks. -/
structure ConnectInput where
  connect_to_address : Option Value
  serverEvents : List Event
  clientEvents : List Event

/-- assert that every expected fixture UUID occurs among the observed
UUID values (the membership loop of ble_utils.py lines 356-359 and
446-449). -/
def assertUuidsPresent (expected : List String) (uuids : List Value) :
    Except Failure Unit :=
  match expected with
  | [] => Except.ok ()
  | u :: rest =>
      match assertTrue (uuids.any (fun v => v.eqStr u))
          "Failed to find uuid" with
      | Except.error e => Except.error e
      | Except.ok _ => assertUuidsPresent rest uuids

/-- Server half of Connect (ble_utils.py lines 347-360): wait for
onServiceAdded, check its status and that each fixture characteristic
UUID is present; returns the remaining server queue. -/
def connectServer (serverEvents : List Event) :
    Except Failure (List Event) :=
  match waitAndGet serverEvents "onServiceAdded" (some 30) with
  | Except.error e => Except.error e
  | Except.ok (startServerResult, serverQ) =>
      match dictGet startServerResult.data STATUS with
      | Except.error e => Except.error e
      | Except.ok status =>
          if status.eqStr GATT_SUCCESS then
            match dictGet startServerResult.data "Service" with
            | Except.error e => Except.error e
            | Except.ok service =>
                match service.sub "Characteristics" with
                | Except.error e => Except.error e
                | Except.ok characteristicsVal =>
                    match characteristicsVal.items with
                    | Except.error e => Except.error e
                    | Except.ok characteristics =>
                        match characteristics.mapM
                            (fun c => c.sub UUID) with
                        | Except.error e => Except.error e
                        | Except.ok uuids =>
                            match assertUuidsPresent
                                SERVICE_CHARACTERISTIC_UUIDS uuids with
                            | Except.error e => Except.error e
                            | Except.ok _ => Except.ok serverQ
          else Except.error (Failure.assertionError
            "onServiceAdded status is not GATT_SUCCESS")

/-- Client half of Connect (ble_utils.py lines 364-374): wait for the
first onConnectionStateChange, assert that no further such event is
queued, then check status and state.  Returns the consumed event. -/
def connectClient (clientEvents : List Event) : Except Failure Event :=
  match waitAndGet clientEvents "onConnectionStateChange"
      (some CONNECTION_TIMEOUT) with
  | Except.error e => Except.error e
  | Except.ok (startClientResult, clientQ) =>
      let extraEvents := (getAll clientQ "onConnectionStateChange").fst
      if extraEvents.isEmpty then
        match dictGet startClientResult.data STATUS with
        | Except.error e => Except.error e
        | Except.ok status =>
            if status.eqStr GATT_SUCCESS then
              match dictGet startClientResult.data STATE with
              | Except.error e => Except.error e
              | Except.ok state =>
                  if state.eqStr "STATE_CONNECTED" then
                    Except.ok startClientResult
                  else Except.error (Failure.assertionError
                    "newState is not STATE_CONNECTED")
            else Except.error (Failure.assertionError
              "status is not GATT_SUCCESS")
      else Except.error (Failure.assertionError
        "Got unexpected onConnectionStateChange events")

/-- Tail of Connect (ble_utils.py lines 376-387): the server-side
connectivity check, and the gattConnectionTimeMs metric read from the
client event at line 386.  The server-side waitAndGet at line 377 passes
no timeout argument. -/
def connectFinish (startClientResult : Event) (serverQ : List Event) :
    Except Failure Unit :=
  match waitAndGet serverQ "onConnectionStateChange" none with
  | Except.error e => Except.error e
  | Except.ok (serverEvent, _) =>
      match dictGet serverEvent.data STATUS with
      | Except.error e => Except.error e
      | Except.ok status =>
          if status.eqStr GATT_SUCCESS then
            match dictGet serverEvent.data STATE with
            | Except.error e => Except.error e
            | Except.ok state =>
                if state.eqStr "STATE_CONNECTED" then
                  match dictGet startClientResult.data
                      "gattConnectionTimeMs" with
                  | Except.error e => Except.error e
                  | Except.ok _ => Except.ok ()
                else Except.error (Failure.assertionError
                  "The server side does not consider itself connected")
          else Except.error (Failure.assertionError
            "server status is not GATT_SUCCESS")

/-- Connect (ble_utils.py lines 329-387).  bleStartServer is issued
first; bleConnectGatt is issued with exactly the stored
connect_to_address, and reading that attribute when no Discover set it
is a Python AttributeError. -/
def Connect (inp : ConnectInput) : List Command × Except Failure Unit :=
  let log0 := [Command.bleStartServer]
  match connectServer inp.serverEvents with
  | Except.error e => (log0, Except.error e)
  | Except.ok serverQ =>
      match inp.connect_to_address with
      | none => (log0, Except.error (Failure.attributeError
          "connect_to_address"))
      | some addr =>
          let log1 := log0 ++ [Command.bleConnectGatt addr]
          match connectClient inp.clientEvents with
          | Except.error e => (log1, Except.error e)
          | Except.ok startClientResult =>
              (log1, connectFinish startClientResult serverQ)

-- DiscoverServices phase (ble_utils.py lines 417-453).

/-- The loop over the Services of the single onServiceDiscovered event
(ble_utils.py lines 440-449): for every service with the fixture UUID,
assert that each fixture characteristic UUID occurs among its
characteristic UUIDs, and record that the service was seen. -/
def discoverServicesLoop :
    List Value → Bool → Except Failure Bool
  | [], found => Except.ok found
  | service :: rest, found =>
      match service.sub "UUID" with
      | Except.error e => Except.error e
      | Except.ok u =>
          if u.eqStr TEST_BLE_SERVICE_UUID then
            match service.sub "Characteristics" with
            | Except.error e => Except.error e
            | Except.ok characteristicsVal =>
                match characteristicsVal.items with
                | Except.error e => Except.error e
                | Except.ok characteristics =>
                    match characteristics.mapM (fun c => c.sub UUID) with
                    | Except.error e => Except.error e
                    | Except.ok uuids =>
                        match assertUuidsPresent
                            SERVICE_CHARACTERISTIC_UUIDS uuids with
                        | Except.error e => Except.error e
                        | Except.ok _ => discoverServicesLoop rest true
          else discoverServicesLoop rest found

/-- Evaluation part of DiscoverServices (ble_utils.py lines 433-453):
after the sleep, drain all onServiceDiscovered events, assert there is
exactly one, check its status, run the service loop and assert the
fixture service was discovered. -/
def discoverServicesEval (clientEvents : List Event) :
    Except Failure Unit :=
  let discoverServicesResults :=
    (getAll clientEvents "onServiceDiscovered").fst
  if discoverServicesResults.length == 1 then
    match discoverServicesResults with
    | [] => Except.error (Failure.typeError "index out of range")
    | firstResult :: _ =>
        match dictGet firstResult.data STATUS with
        | Except.error e => Except.error e
        | Except.ok status =>
            if status.eqStr GATT_SUCCESS then
              match dictGet firstResult.data "Services" with
              | Except.error e => Except.error e
              | Except.ok servicesVal =>
                  match servicesVal.items with
                  | Except.error e => Except.error e
                  | Except.ok services =>
                      match discoverServicesLoop services false with
                      | Except.error e => Except.error e
                      | Except.ok serviceDiscovered =>
                          assertTrue serviceDiscovered
                            "Failed to discover the customize service"
            else Except.error (Failure.assertionError
              "onServiceDiscovered status is not GATT_SUCCESS")
  else Except.error (Failure.assertionError
    "expected exactly one onServiceDiscovered event")

/-- DiscoverServices (ble_utils.py lines 417-453): issue
bleDiscoverServices, sleep CONNECTION_TIMEOUT, then evaluate. -/
def DiscoverServices (clientEvents : List Event) :
    List Command × Except Failure Unit :=
  ([Command.bleDiscoverServices], discoverServicesEval clientEvents)

-- ReadCharacteristic phase (ble_utils.py lines 456-504).

/-- Input to the Read phase: the truthiness of the three bleReadOperation
return values, and the client callback queue. -/
structure ReadInput where
  readStart1 : Bool
  readStart2 : Bool
  readStart3 : Bool
  clientEvents : List Event

/-- One read step (ble_utils.py lines 469-480 and its two repetitions):
assert the operation started, wait for onCharacteristicRead, check its
status and that its Data equals the fixture payload; returns the
remaining client queue. -/
def readStep (startOk : Bool) (payload : String) (clientQ : List Event) :
    Except Failure (List Event) :=
  match assertTrue startOk "BLE read operation failed to start" with
  | Except.error e => Except.error e
  | Except.ok _ =>
      match waitAndGet clientQ "onCharacteristicRead" (some 30) with
      | Except.error e => Except.error e
      | Except.ok (readResult, clientQ2) =>
          match dictGet readResult.data STATUS with
          | Except.error e => Except.error e
          | Except.ok status =>
              if status.eqStr GATT_SUCCESS then
                match dictGet readResult.data "Data" with
                | Except.error e => Except.error e
                | Except.ok d =>
                    if d.eqStr payload then Except.ok clientQ2
                    else Except.error (Failure.assertionError
                      "read Data does not equal the fixture payload")
              else Except.error (Failure.assertionError
                "onCharacteristicRead status is not GATT_SUCCESS")

/-- ReadCharacteristic (ble_utils.py lines 456-504): three reads, one per
fixture read characteristic, each issuing bleReadOperation and then
evaluating its event. -/
def ReadCharacteristic (fx : Fixtures) (inp : ReadInput) :
    List Command × Except Failure Unit :=
  let log1 := [Command.bleReadOperation TEST_BLE_SERVICE_UUID
    TEST_READ_UUID]
  match readStep inp.readStart1 fx.READ_DATA inp.clientEvents with
  | Except.error e => (log1, Except.error e)
  | Except.ok clientQ2 =>
      let log2 := log1 ++ [Command.bleReadOperation TEST_BLE_SERVICE_UUID
        TEST_SECOND_READ_UUID]
      match readStep inp.readStart2 fx.SECOND_READ_DATA clientQ2 with
      | Except.error e => (log2, Except.error e)
      | Except.ok clientQ3 =>
          let log3 := log2 ++ [Command.bleReadOperation
            TEST_BLE_SERVICE_UUID TEST_THIRD_READ_UUID]
          match readStep inp.readStart3 fx.THIRD_READ_DATA clientQ3 with
          | Except.error e => (log3, Except.error e)
          | Except.ok _ => (log3, Except.ok ())

-- WriteCharacteristic phase (ble_utils.py lines 507-548).

/-- Input to the Write phase: the truthiness of the two bleWriteOperation
return values, and the server and client callback queues. -/
structure WriteInput where
  writeStart1 : Bool
  writeStart2 : Bool
  serverEvents : List Event
  clientEvents : List Event

/-- One write step (ble_utils.py lines 523-534 and its repetition): assert
the operation started, wait for the server-side
onCharacteristicWriteRequest and check its Data equals the sent payload,
then wait for the client-side onCharacteristicWrite, whose event is not
inspected (line 533 binds nothing).  Returns the remaining queues. -/
def writeStep (startOk : Bool) (payload : String)
    (serverQ clientQ : List Event) :
    Except Failure (List Event × List Event) :=
  match assertTrue startOk "BLE write operation failed to start" with
  | Except.error e => Except.error e
  | Except.ok _ =>
      match waitAndGet serverQ "onCharacteristicWriteRequest" (some 30) with
      | Except.error e => Except.error e
      | Except.ok (serverWriteResult, serverQ2) =>
          match dictGet serverWriteResult.data "Data" with
          | Except.error e => Except.error e
          | Except.ok d =>
              if d.eqStr payload then
                match waitAndGet clientQ "onCharacteristicWrite"
                    (some 30) with
                | Except.error e => Except.error e
                | Except.ok (_, clientQ2) => Except.ok (serverQ2, clientQ2)
              else Except.error (Failure.assertionError
                "write request Data does not equal the sent payload")

/-- WriteCharacteristic (ble_utils.py lines 507-548): two writes, one per
fixture write characteristic. -/
def WriteCharacteristic (fx : Fixtures) (inp : WriteInput) :
    List Command × Except Failure Unit :=
  let log1 := [Command.bleWriteOperation TEST_BLE_SERVICE_UUID
    TEST_WRITE_UUID fx.WRITE_DATA]
  match writeStep inp.writeStart1 fx.WRITE_DATA inp.serverEvents
      inp.clientEvents with
  | Except.error e => (log1, Except.error e)
  | Except.ok (serverQ2, clientQ2) =>
      let log2 := log1 ++ [Command.bleWriteOperation TEST_BLE_SERVICE_UUID
        TEST_SECOND_WRITE_UUID fx.SECOND_WRITE_DATA]
      match writeStep inp.writeStart2 fx.SECOND_WRITE_DATA serverQ2
          clientQ2 with
      | Except.error e => (log2, Except.error e)
      | Except.ok _ => (log2, Except.ok ())

-- Blocking waits of the harness.

/-- One blocking wait call site in ble_utils.py: its phase, the event it
waits for, and the timeout argument the call passes (none when the call
passes no timeout argument). -/
structure WaitSpec where
  phase : String
  eventName : String
  timeoutSeconds : Option Nat
  deriving DecidableEq, Repr

/-- Every blocking wait call site (waitAndGet or waitForEvent) in
ble_utils.py, in source order: lines 197, 348, 364, 377, 407, 475, 487,
499, 529, 533, 541 and 547.  StartScanning and DiscoverServices only use
the non-blocking getAll.  The call at line 377 passes no timeout
argument. -/
def harnessWaits : List WaitSpec :=
  [⟨"Discover", "onScanResult", some SCAN_TIMEOUT⟩,
   ⟨"Connect", "onServiceAdded", some 30⟩,
   ⟨"Connect", "onConnectionStateChange", some CONNECTION_TIMEOUT⟩,
   ⟨"Connect", "onConnectionStateChange", none⟩,
   ⟨"Disconnect", "onConnectionStateChange", some 30⟩,
   ⟨"ReadCharacteristic", "onCharacteristicRead", some 30⟩,
   ⟨"ReadCharacteristic", "onCharacteristicRead", some 30⟩,
   ⟨"ReadCharacteristic", "onCharacteristicRead", some 30⟩,
   ⟨"WriteCharacteristic", "onCharacteristicWriteRequest", some 30⟩,
   ⟨"WriteCharacteristic", "onCharacteristicWrite", some 30⟩,
   ⟨"WriteCharacteristic", "onCharacteristicWriteRequest", some 30⟩,
   ⟨"WriteCharacteristic", "onCharacteristicWrite", some 30⟩]

/-- The server-side connection wait of Connect, ble_utils.py line 377. -/
def serverConnectionWait : WaitSpec :=
  ⟨"Connect", "onConnectionStateChange", none⟩

-- Session composition (ble_gatt_test.py lines 38-39): Discover runs with
-- the initiator as scanner, then Connect runs with the initiator as
-- client, reading the connect_to_address attribute Discover stored.

/-- Discover followed by Connect, as the test sequences them, the stored
scanner attribute flowing from the one into the other; a failed Discover
halts the session. -/
def DiscoverThenConnect (fx : Fixtures) (dinp : DiscoverInput)
    (serverEvents clientEvents : List Event) :
    List Command × Except Failure Unit :=
  match Discover fx dinp with
  | (log, Except.error e) => (log, Except.error e)
  | (log, Except.ok out) =>
      let next := Connect ⟨out.connect_to_address, serverEvents,
        clientEvents⟩
      (log ++ next.fst, next.snd)

-- Observers used in theorem statements.

/-- A scan-record service entry with the given UUID and Data strings,
checked with the same short-circuit shape as the source comparisons. -/
def serviceEntryMatches (uuid data : String) (s : Value) : Bool :=
  match s.sub UUID with
  | Except.error _ => false
  | Except.ok u =>
      u.eqStr uuid &&
        (match s.sub "Data" with
         | Except.error _ => false
         | Except.ok d => d.eqStr data)

/-- The service entries of a scan result event, when well formed. -/
def resultServices (e : Event) : Except Failure (List Value) :=
  match dictGet e.data "result" with
  | Except.error err => Except.error err
  | Except.ok result =>
      match result.sub "ScanRecord" with
      | Except.error err => Except.error err
      | Except.ok record =>
          match record.sub "Services" with
          | Except.error err => Except.error err
          | Except.ok servicesVal => servicesVal.items

/-- The scan result event carries a service entry with this UUID and
Data. -/
def hasServiceEntry (e : Event) (uuid data : String) : Bool :=
  match resultServices e with
  | Except.ok services => services.any (serviceEntryMatches uuid data)
  | Except.error _ => false

/-- The Device Address inside a scan result dict. -/
def deviceAddress (result : Value) : Except Failure Value :=
  match result.sub "Device" with
  | Except.error e => Except.error e
  | Except.ok device => device.sub "Address"

/-- The characteristic UUID values of a discovered service dict. -/
def charUuids (s : Value) : Except Failure (List Value) :=
  match s.sub "Characteristics" with
  | Except.error e => Except.error e
  | Except.ok characteristicsVal =>
      match characteristicsVal.items with
      | Except.error e => Except.error e
      | Except.ok characteristics =>
          characteristics.mapM (fun c => c.sub UUID)

/-- The characteristic UUID set of the service is a superset of, or equal
to, the fixture characteristic UUID set. -/
def coversFixtureUuids (s : Value) : Bool :=
  match charUuids s with
  | Except.ok uuids =>
      SERVICE_CHARACTERISTIC_UUIDS.all
        (fun u => uuids.any (fun v => v.eqStr u))
  | Except.error _ => false

/-- The discovered-service dict has the fixture service UUID (the check of
ble_utils.py line 441, which subscripts the literal string UUID). -/
def isFixtureService (s : Value) : Bool :=
  match s.sub "UUID" with
  | Except.ok u => u.eqStr TEST_BLE_SERVICE_UUID
  | Except.error _ => false

-- Concrete inputs used by the witnesses: one well-formed successful
-- session.  The payload strings play the role of one concrete draw of the
-- per-run random fixtures; DATA is the literal of the specification
-- scenario.

/-- One concrete draw of the random payload fixtures. -/
def specFixtures : Fixtures :=
  { DATA := "AbCdEfGh12345678"
    SCAN_RESPONSE_DATA := "Ij90KlMn34OpQr56"
    READ_DATA := "Rd1Data8"
    SECOND_READ_DATA := "Rd2Data8"
    THIRD_READ_DATA := "Rd3Data8"
    WRITE_DATA := "Wr1Data8"
    SECOND_WRITE_DATA := "Wr2Data8" }

/-- The result dict of a well-formed scan result carrying both the
advertise service entry and the scan response entry. -/
def goodScanResultValue : Value :=
  Value.obj
    [("ScanRecord", Value.obj
       [("Services", Value.list
          [Value.obj [(UUID, Value.str TEST_BLE_SERVICE_UUID),
                      ("Data", Value.str specFixtures.DATA)],
           Value.obj [(UUID, Value.str TEST_SCAN_RESPONSE_UUID),
                      ("Data",
                       Value.str specFixtures.SCAN_RESPONSE_DATA)]])]),
     ("Device", Value.obj [("Address",
        Value.str "11:22:33:44:55:66")])]

/-- A well-formed scan result event carrying the good result dict. -/
def goodScanEvent : Event :=
  ⟨"onScanResult",
   [("result", goodScanResultValue),
    ("StartToResultTimeDeltaMs", Value.int 250)]⟩

/-- An onStartSuccess event as the advertise callback delivers it. -/
def startSuccessEvent : Event := ⟨"onStartSuccess", []⟩

/-- A successful Discover input: the first attempt observes
onStartSuccess, and the scan queue holds the good scan result. -/
def goodDiscoverInput : DiscoverInput :=
  ⟨fun _ => [startSuccessEvent], [goodScanEvent]⟩

/-- The output a successful Discover produces on goodDiscoverInput. -/
def goodDiscoverOut : DiscoverOut :=
  ⟨some (Value.str "11:22:33:44:55:66"), goodScanResultValue⟩

/-- The onServiceAdded event of a well-formed server start, listing every
fixture characteristic UUID. -/
def serviceAddedEvent : Event :=
  ⟨"onServiceAdded",
   [(STATUS, Value.str GATT_SUCCESS),
    ("Service", Value.obj
      [("Characteristics", Value.list
         (SERVICE_CHARACTERISTIC_UUIDS.map
           (fun u => Value.obj [(UUID, Value.str u)])))])]⟩

/-- A connected state change event as the server callback delivers it. -/
def serverConnectedEvent : Event :=
  ⟨"onConnectionStateChange",
   [(STATUS, Value.str GATT_SUCCESS),
    (STATE, Value.str "STATE_CONNECTED")]⟩

/-- A connected state change event as the client callback delivers it,
carrying the connection time metric the phase logs. -/
def clientConnectedEvent : Event :=
  ⟨"onConnectionStateChange",
   [(STATUS, Value.str GATT_SUCCESS),
    (STATE, Value.str "STATE_CONNECTED"),
    ("gattConnectionTimeMs", Value.int 37)]⟩

/-- A successful Connect input. -/
def goodConnectInput : ConnectInput :=
  ⟨some (Value.str "11:22:33:44:55:66"),
   [serviceAddedEvent, serverConnectedEvent],
   [clientConnectedEvent]⟩

/-- The single well-formed onServiceDiscovered event, with one extra
characteristic UUID beyond the fixture set. -/
def serviceDiscoveredEvent : Event :=
  ⟨"onServiceDiscovered",
   [(STATUS, Value.str GATT_SUCCESS),
    ("Services", Value.list
      [Value.obj
        [("UUID", Value.str TEST_BLE_SERVICE_UUID),
         ("Characteristics", Value.list
           ((SERVICE_CHARACTERISTIC_UUIDS ++
             ["0000ffff-0000-1000-8000-00805f9b34fb"]).map
             (fun u => Value.obj [(UUID, Value.str u)])))]])]⟩

/-- An onCharacteristicRead event carrying the given payload. -/
def readEvent (payload : String) : Event :=
  ⟨"onCharacteristicRead",
   [(STATUS, Value.str GATT_SUCCESS), ("Data", Value.str payload)]⟩

/-- A successful Read input. -/
def goodReadInput : ReadInput :=
  ⟨true, true, true,
   [readEvent specFixtures.READ_DATA,
    readEvent specFixtures.SECOND_READ_DATA,
    readEvent specFixtures.THIRD_READ_DATA]⟩

/-- An onCharacteristicWriteRequest event carrying the given payload. -/
def writeRequestEvent (payload : String) : Event :=
  ⟨"onCharacteristicWriteRequest", [("Data", Value.str payload)]⟩

/-- An onCharacteristicWrite completion event; its payload carries a
status only so that the theorems can vary it. -/
def writeCompleteEvent (status : String) : Event :=
  ⟨"onCharacteristicWrite", [(STATUS, Value.str status)]⟩

/-- A successful Write input, whose completion events carry a failure
status that the phase never inspects. -/
def goodWriteInput : WriteInput :=
  ⟨true, true,
   [writeRequestEvent specFixtures.WRITE_DATA,
    writeRequestEvent specFixtures.SECOND_WRITE_DATA],
   [writeCompleteEvent "GATT_FAILURE", writeCompleteEvent "GATT_FAILURE"]⟩

-- Queue lemmas.

theorem countName_cons (e : Event) (q : List Event) (name : String) :
    countName (e :: q) name =
      if e.name == name then countName q name + 1 else countName q name := by
  simp only [countName, List.filter_cons]
  split <;> simp

theorem popFirst_none {name : String} :
    ∀ {q : List Event}, popFirst name q = none → countName q name = 0 := by
  intro q
  induction q with
  | nil => intro _; rfl
  | cons e rest ih =>
      intro h
      rw [countName_cons]
      unfold popFirst at h
      by_cases he : (e.name == name) = true
      · rw [he] at h; simp at h
      · rw [Bool.not_eq_true] at he
        rw [he] at h
        simp only [he, Bool.false_eq_true, if_false] at h ⊢
        cases hp : popFirst name rest with
        | none => exact ih hp
        | some r => rw [hp] at h; rcases r with ⟨a, b⟩; simp at h

theorem popFirst_some {name : String} :
    ∀ {q : List Event} {e : Event} {rest : List Event},
      popFirst name q = some (e, rest) →
      (e.name == name) = true ∧
        countName q name = countName rest name + 1 := by
  intro q
  induction q with
  | nil => intro e rest h; simp [popFirst] at h
  | cons e0 q0 ih =>
      intro e rest h
      unfold popFirst at h
      by_cases he : (e0.name == name) = true
      · rw [he] at h
        simp only [if_true] at h
        cases h
        rw [countName_cons, he]
        simp
      · rw [Bool.not_eq_true] at he
        rw [he] at h
        simp only [Bool.false_eq_true, if_false] at h
        cases hp : popFirst name q0 with
        | none => rw [hp] at h; simp at h
        | some r =>
            rcases r with ⟨a, b⟩
            rw [hp] at h
            simp only [Option.some.injEq, Prod.mk.injEq] at h
            rcases h with ⟨hea, hrest⟩
            subst hea
            rcases ih hp with ⟨hname, hcount⟩
            constructor
            · exact hname
            · subst hrest
              rw [countName_cons, he, countName_cons, he]
              simp [hcount]

theorem countName_pos_popFirst {name : String} {q : List Event}
    (h : 0 < countName q name) :
    ∃ e rest, popFirst name q = some (e, rest) := by
  cases hp : popFirst name q with
  | none => rw [popFirst_none hp] at h; exact absurd h (by simp)
  | some r => rcases r with ⟨a, b⟩; exact ⟨a, b, rfl⟩

theorem waitAndGet_ok {q : List Event} {name : String} {t : Option Nat}
    {e : Event} {rest : List Event} :
    waitAndGet q name t = Except.ok (e, rest) ↔
      popFirst name q = some (e, rest) := by
  unfold waitAndGet
  cases hp : popFirst name q <;> simp

theorem dictGet_ok {d : List (String × Value)} {k : String} {v : Value} :
    dictGet d k = Except.ok v ↔ lookupKey d k = some v := by
  unfold dictGet
  cases lookupKey d k <;> simp

theorem connectClient_ok {q : List Event} {ev : Event}
    (h : connectClient q = Except.ok ev) :
    ∃ rest, popFirst "onConnectionStateChange" q = some (ev, rest) ∧
      countName rest "onConnectionStateChange" = 0 ∧
      checkEqStr ev.data STATUS GATT_SUCCESS = true ∧
      checkEqStr ev.data STATE "STATE_CONNECTED" = true := by
  unfold connectClient at h
  split at h
  · simp at h
  · next e0 rest heq =>
      rw [waitAndGet_ok] at heq
      by_cases hext :
          ((getAll rest "onConnectionStateChange").fst).isEmpty = true
      · simp only [hext, if_true] at h
        split at h
        · simp at h
        · next status hst =>
            split at h
            · next hgs =>
                split at h
                · simp at h
                · next state hstt =>
                    split at h
                    · next hcs =>
                        have hev : e0 = ev := by
                          simpa using h
                        subst hev
                        refine ⟨rest, heq, ?_, ?_, ?_⟩
                        · have : (getAll rest "onConnectionStateChange").fst = [] :=
                            List.isEmpty_iff.mp hext
                          simpa [countName, getAll] using congrArg List.length this
                        · unfold checkEqStr
                          rw [dictGet_ok.mp hst]
                          exact hgs
                        · unfold checkEqStr
                          rw [dictGet_ok.mp hstt]
                          exact hcs
                    · simp at h
            · simp at h
      · simp only [hext, if_false] at h
        simp at h

theorem connectClient_dup {q : List Event}
    (h2 : 2 ≤ countName q "onConnectionStateChange") :
    connectClient q = Except.error (Failure.assertionError
      "Got unexpected onConnectionStateChange events") := by
  obtain ⟨e, rest, hp⟩ :=
    @countName_pos_popFirst "onConnectionStateChange" q (by omega)
  have hcnt := (popFirst_some hp).2
  have hrest : 0 < countName rest "onConnectionStateChange" := by omega
  have hlen : 0 < ((getAll rest "onConnectionStateChange").fst).length := by
    simpa [getAll, countName] using hrest
  have hne : ((getAll rest "onConnectionStateChange").fst).isEmpty
      = false := by
    cases hie : ((getAll rest "onConnectionStateChange").fst).isEmpty
    · rfl
    · rw [List.isEmpty_iff.mp hie] at hlen
      simp at hlen
  unfold connectClient
  rw [waitAndGet_ok.mpr hp]
  simp [hne]

/-- C1: the Connect phase succeeds only when exactly one
onConnectionStateChange event is in the initiator queue before
evaluation, that event carrying GATT_SUCCESS and STATE_CONNECTED; when a
second such event is queued, the client evaluation fails with the
duplicate-event assertion error regardless of the payloads, and the phase
cannot succeed. -/
theorem connect_state_change_exactly_once (inp : ConnectInput) :
    ((Connect inp).snd = Except.ok () →
       countName inp.clientEvents "onConnectionStateChange" = 1 ∧
       ∃ ev rest,
         popFirst "onConnectionStateChange" inp.clientEvents =
           some (ev, rest) ∧
         checkEqStr ev.data STATUS GATT_SUCCESS = true ∧
         checkEqStr ev.data STATE "STATE_CONNECTED" = true) ∧
    (2 ≤ countName inp.clientEvents "onConnectionStateChange" →
       connectClient inp.clientEvents = Except.error
         (Failure.assertionError
           "Got unexpected onConnectionStateChange events") ∧
       (Connect inp).snd ≠ Except.ok ()) := by
  have hmain : (Connect inp).snd = Except.ok () →
      countName inp.clientEvents "onConnectionStateChange" = 1 ∧
      ∃ ev rest,
        popFirst "onConnectionStateChange" inp.clientEvents =
          some (ev, rest) ∧
        checkEqStr ev.data STATUS GATT_SUCCESS = true ∧
        checkEqStr ev.data STATE "STATE_CONNECTED" = true := by
    intro h
    unfold Connect at h
    split at h
    · simp at h
    · split at h
      · simp at h
      · next addr =>
          split at h
          · simp at h
          · next scr heq =>
              obtain ⟨rest, hp, hcnt0, hgs, hcs⟩ := connectClient_ok heq
              refine ⟨?_, scr, rest, hp, hgs, hcs⟩
              rw [(popFirst_some hp).2, hcnt0]
  refine ⟨hmain, fun h2 => ⟨connectClient_dup h2, fun hok => ?_⟩⟩
  have h1 := (hmain hok).1
  omega

theorem assertTrue_ok {b : Bool} {m : String} {u : Unit} :
    assertTrue b m = Except.ok u ↔ b = true := by
  unfold assertTrue
  cases b <;> simp

theorem countName_zero_popFirst {name : String} {q : List Event}
    (h : countName q name = 0) : popFirst name q = none := by
  cases hp : popFirst name q with
  | none => rfl
  | some r =>
      rcases r with ⟨a, b⟩
      have := (popFirst_some hp).2
      omega

theorem writeStep_ok {st : Bool} {p : String} {sq cq sq2 cq2 : List Event}
    (h : writeStep st p sq cq = Except.ok (sq2, cq2)) :
    st = true ∧
    (∃ e1, popFirst "onCharacteristicWriteRequest" sq = some (e1, sq2) ∧
       checkEqStr e1.data "Data" p = true) ∧
    ∃ e2, popFirst "onCharacteristicWrite" cq = some (e2, cq2) := by
  unfold writeStep at h
  split at h
  · simp at h
  · next u hst =>
      split at h
      · simp at h
      · next e1 r1 hw1 =>
          split at h
          · simp at h
          · next d hd =>
              split at h
              · next heq =>
                  split at h
                  · simp at h
                  · next e2 r2 hw2 =>
                      simp only [Except.ok.injEq, Prod.mk.injEq] at h
                      rcases h with ⟨hs, hc⟩
                      subst hs; subst hc
                      refine ⟨assertTrue_ok.mp hst, ⟨e1,
                        waitAndGet_ok.mp hw1, ?_⟩, e2,
                        waitAndGet_ok.mp hw2⟩
                      unfold checkEqStr
                      rw [dictGet_ok.mp hd]
                      exact heq
              · simp at h

theorem readStep_ok {st : Bool} {p : String} {q q2 : List Event}
    (h : readStep st p q = Except.ok q2) :
    st = true ∧
    ∃ e, popFirst "onCharacteristicRead" q = some (e, q2) ∧
      checkEqStr e.data STATUS GATT_SUCCESS = true ∧
      checkEqStr e.data "Data" p = true := by
  unfold readStep at h
  split at h
  · simp at h
  · next u hst =>
      split at h
      · simp at h
      · next e r hw =>
          split at h
          · simp at h
          · next status hstat =>
              split at h
              · next hgs =>
                  split at h
                  · simp at h
                  · next d hd =>
                      split at h
                      · next hdp =>
                          simp only [Except.ok.injEq] at h
                          subst h
                          refine ⟨assertTrue_ok.mp hst, e,
                            waitAndGet_ok.mp hw, ?_, ?_⟩
                          · unfold checkEqStr
                            rw [dictGet_ok.mp hstat]
                            exact hgs
                          · unfold checkEqStr
                            rw [dictGet_ok.mp hd]
                            exact hdp
                      · simp at h
              · simp at h

/-- C5: a successful Write phase consumed, from the receiver queue, a
first write request carrying WRITE_DATA and then a second carrying
SECOND_WRITE_DATA, and at least two client write-complete events were
queued; when no write request is queued (with the first command started),
the phase fails with the receiver-side timeout, showing the receiver wait
comes first and is never substituted by the client confirmation; and with
no client write-complete event the phase cannot succeed. -/
theorem write_request_precedes_completion (fx : Fixtures)
    (inp : WriteInput) :
    ((WriteCharacteristic fx inp).snd = Except.ok () →
       (∃ e1 r1, popFirst "onCharacteristicWriteRequest" inp.serverEvents =
            some (e1, r1) ∧
          checkEqStr e1.data "Data" fx.WRITE_DATA = true ∧
          ∃ e2 r2, popFirst "onCharacteristicWriteRequest" r1 =
              some (e2, r2) ∧
            checkEqStr e2.data "Data" fx.SECOND_WRITE_DATA = true) ∧
       2 ≤ countName inp.clientEvents "onCharacteristicWrite") ∧
    (inp.writeStart1 = true →
       countName inp.serverEvents "onCharacteristicWriteRequest" = 0 →
       (WriteCharacteristic fx inp).snd =
         Except.error (Failure.timeoutError
           "onCharacteristicWriteRequest")) ∧
    (countName inp.clientEvents "onCharacteristicWrite" = 0 →
       (WriteCharacteristic fx inp).snd ≠ Except.ok ()) := by
  have hmain : (WriteCharacteristic fx inp).snd = Except.ok () →
      (∃ e1 r1, popFirst "onCharacteristicWriteRequest" inp.serverEvents =
           some (e1, r1) ∧
         checkEqStr e1.data "Data" fx.WRITE_DATA = true ∧
         ∃ e2 r2, popFirst "onCharacteristicWriteRequest" r1 =
             some (e2, r2) ∧
           checkEqStr e2.data "Data" fx.SECOND_WRITE_DATA = true) ∧
      2 ≤ countName inp.clientEvents "onCharacteristicWrite" := by
    intro h
    unfold WriteCharacteristic at h
    split at h
    · simp at h
    · next sq2 cq2 hs1 =>
        split at h
        · simp at h
        · next pr hs2 =>
            rcases pr with ⟨sq3, cq3⟩
            obtain ⟨_, ⟨e1, hp1, hd1⟩, ⟨ec1, hc1⟩⟩ := writeStep_ok hs1
            obtain ⟨_, ⟨e2, hp2, hd2⟩, ⟨ec2, hc2⟩⟩ := writeStep_ok hs2
            refine ⟨⟨e1, sq2, hp1, hd1, e2, sq3, hp2, hd2⟩, ?_⟩
            have k1 := (popFirst_some hc1).2
            have k2 := (popFirst_some hc2).2
            omega
  refine ⟨hmain, fun hst hcnt => ?_, fun hzero hok => ?_⟩
  · have hpop := countName_zero_popFirst hcnt
    unfold WriteCharacteristic writeStep
    rw [hst]
    simp [assertTrue, waitAndGet, hpop]
  · have := (hmain hok).2
    omega

/-- C6: the Read phase succeeds only when all three read commands started
successfully and the three onCharacteristicRead events it consumed, in
queue order, carried GATT_SUCCESS and exactly the fixture payloads
READ_DATA, SECOND_READ_DATA and THIRD_READ_DATA. -/
theorem read_roundtrip_payloads (fx : Fixtures) (inp : ReadInput) :
    (ReadCharacteristic fx inp).snd = Except.ok () →
      inp.readStart1 = true ∧ inp.readStart2 = true ∧
      inp.readStart3 = true ∧
      ∃ e1 q2, popFirst "onCharacteristicRead" inp.clientEvents =
          some (e1, q2) ∧
        checkEqStr e1.data STATUS GATT_SUCCESS = true ∧
        checkEqStr e1.data "Data" fx.READ_DATA = true ∧
        ∃ e2 q3, popFirst "onCharacteristicRead" q2 = some (e2, q3) ∧
          checkEqStr e2.data STATUS GATT_SUCCESS = true ∧
          checkEqStr e2.data "Data" fx.SECOND_READ_DATA = true ∧
          ∃ e3 q4, popFirst "onCharacteristicRead" q3 = some (e3, q4) ∧
            checkEqStr e3.data STATUS GATT_SUCCESS = true ∧
            checkEqStr e3.data "Data" fx.THIRD_READ_DATA = true := by
  intro h
  unfold ReadCharacteristic at h
  split at h
  · simp at h
  · next q2 h1 =>
      split at h
      · simp at h
      · next q3 h2 =>
          split at h
          · simp at h
          · next q4 h3 =>
              obtain ⟨hs1, e1, hp1, hg1, hd1⟩ := readStep_ok h1
              obtain ⟨hs2, e2, hp2, hg2, hd2⟩ := readStep_ok h2
              obtain ⟨hs3, e3, hp3, hg3, hd3⟩ := readStep_ok h3
              exact ⟨hs1, hs2, hs3, e1, q2, hp1, hg1, hd1, e2, q3, hp2,
                hg2, hd2, e3, q4, hp3, hg3, hd3⟩

theorem writeStep_client_invariant {st : Bool} {p : String}
    {sq cq1 cq2 : List Event}
    (h : countName cq1 "onCharacteristicWrite" =
      countName cq2 "onCharacteristicWrite") :
    (∃ e, writeStep st p sq cq1 = Except.error e ∧
       writeStep st p sq cq2 = Except.error e) ∨
    (∃ sq2 b1 b2, writeStep st p sq cq1 = Except.ok (sq2, b1) ∧
       writeStep st p sq cq2 = Except.ok (sq2, b2) ∧
       countName b1 "onCharacteristicWrite" =
         countName b2 "onCharacteristicWrite") := by
  cases ha : assertTrue st "BLE write operation failed to start" with
  | error e =>
      left
      refine ⟨e, ?_, ?_⟩ <;> (unfold writeStep; rw [ha])
  | ok u =>
      cases hw : waitAndGet sq "onCharacteristicWriteRequest"
          (some 30) with
      | error e =>
          left
          refine ⟨e, ?_, ?_⟩ <;> (unfold writeStep; rw [ha]; simp [hw])
      | ok pr =>
          rcases pr with ⟨e1, sq2⟩
          cases hd : dictGet e1.data "Data" with
          | error e =>
              left
              refine ⟨e, ?_, ?_⟩ <;>
                (unfold writeStep; rw [ha]; simp [hw, hd])
          | ok d =>
              by_cases hdp : d.eqStr p = true
              · cases hp1 : popFirst "onCharacteristicWrite" cq1 with
                | none =>
                    have h0 := popFirst_none hp1
                    have hp2 : popFirst "onCharacteristicWrite" cq2
                        = none := countName_zero_popFirst (by omega)
                    left
                    refine ⟨Failure.timeoutError "onCharacteristicWrite",
                      ?_, ?_⟩
                    · unfold writeStep waitAndGet
                      rw [ha]
                      simp [waitAndGet_ok.mp hw, hd, hdp, hp1]
                    · unfold writeStep waitAndGet
                      rw [ha]
                      simp [waitAndGet_ok.mp hw, hd, hdp, hp2]
                | some r1 =>
                    rcases r1 with ⟨ec1, b1⟩
                    have k1 := (popFirst_some hp1).2
                    obtain ⟨ec2, b2, hp2⟩ :=
                      @countName_pos_popFirst "onCharacteristicWrite"
                        cq2 (by omega)
                    have k2 := (popFirst_some hp2).2
                    right
                    refine ⟨sq2, b1, b2, ?_, ?_, by omega⟩
                    · unfold writeStep waitAndGet
                      rw [ha]
                      simp [waitAndGet_ok.mp hw, hd, hdp, hp1]
                    · unfold writeStep waitAndGet
                      rw [ha]
                      simp [waitAndGet_ok.mp hw, hd, hdp, hp2]
              · left
                refine ⟨Failure.assertionError
                  "write request Data does not equal the sent payload",
                  ?_, ?_⟩ <;>
                  (unfold writeStep; rw [ha]; simp [hw, hd, hdp])

/-- C9: the Write phase checks the client write-complete events for
occurrence only: its verdict depends on the client queue only through how
many onCharacteristicWrite events it holds, never on their status or data
payloads; in particular the concrete successful run goodWriteInput, whose
completion events carry a failure status, still completes. -/
theorem write_complete_event_occurrence_only :
    (∀ (fx : Fixtures) (s1 s2 : Bool) (sE cE1 cE2 : List Event),
       countName cE1 "onCharacteristicWrite" =
         countName cE2 "onCharacteristicWrite" →
       (WriteCharacteristic fx ⟨s1, s2, sE, cE1⟩).snd =
         (WriteCharacteristic fx ⟨s1, s2, sE, cE2⟩).snd) ∧
    (WriteCharacteristic specFixtures goodWriteInput).snd =
      Except.ok () := by
  constructor
  · intro fx s1 s2 sE cE1 cE2 h
    unfold WriteCharacteristic
    rcases @writeStep_client_invariant s1 fx.WRITE_DATA sE cE1 cE2
        h with ⟨e, he1, he2⟩ | ⟨sq2, b1, b2, ho1, ho2, hb⟩
    · rw [he1, he2]
    · rw [ho1, ho2]
      dsimp only
      rcases @writeStep_client_invariant s2 fx.SECOND_WRITE_DATA sq2
          b1 b2 hb with ⟨e, he1, he2⟩ | ⟨sq3, c1, c2, ho3, ho4, hc⟩
      · rw [he1, he2]
      · rw [ho3, ho4]
  · rfl

theorem assertUuidsPresent_ok {expected : List String}
    {uuids : List Value} :
    assertUuidsPresent expected uuids = Except.ok () ↔
      ∀ u ∈ expected, uuids.any (fun v => v.eqStr u) = true := by
  induction expected with
  | nil => simp [assertUuidsPresent]
  | cons u rest ih =>
      unfold assertUuidsPresent
      rw [List.forall_mem_cons]
      cases hu : uuids.any (fun v => v.eqStr u) with
      | false => simp [assertTrue]
      | true => simp [assertTrue, ih]

/-- The Services payload of an onServiceDiscovered event. -/
def discoveredServices (e : Event) : Except Failure (List Value) :=
  match dictGet e.data "Services" with
  | Except.error err => Except.error err
  | Except.ok v => v.items

theorem discoverServicesLoop_ok_true :
    ∀ {services : List Value} {found : Bool},
      discoverServicesLoop services found = Except.ok true →
      found = true ∨
        ∃ s ∈ services, isFixtureService s = true ∧
          coversFixtureUuids s = true := by
  intro services
  induction services with
  | nil =>
      intro found h
      unfold discoverServicesLoop at h
      simp at h
      exact Or.inl h
  | cons s rest ih =>
      intro found h
      unfold discoverServicesLoop at h
      split at h
      · simp at h
      · next u hu =>
          split at h
          · next heq =>
              split at h
              · simp at h
              · next cv hcv =>
                  split at h
                  · simp at h
                  · next cs hcs =>
                      split at h
                      · simp at h
                      · next uuids hmap =>
                          split at h
                          · simp at h
                          · next hass =>
                              right
                              refine ⟨s, List.mem_cons_self s rest, ?_, ?_⟩
                              · unfold isFixtureService
                                rw [hu]
                                exact heq
                              · unfold coversFixtureUuids charUuids
                                simp only [hcv, hcs, hmap]
                                rw [List.all_eq_true]
                                exact assertUuidsPresent_ok.mp hass
          · next hne =>
              rcases ih h with hf | ⟨s2, hs2, hprop⟩
              · exact Or.inl hf
              · exact Or.inr ⟨s2, List.mem_cons_of_mem s hs2, hprop⟩

/-- C7: the DiscoverServices phase succeeds only when exactly one
onServiceDiscovered event is queued, that event listing a service with
the fixture UUID whose characteristic UUID set covers every fixture
characteristic UUID; any other event count fails with the cardinality
assertion. -/
theorem discover_services_exactly_once_superset (clientEvents : List Event) :
    ((DiscoverServices clientEvents).snd = Except.ok () →
       countName clientEvents "onServiceDiscovered" = 1 ∧
       ∃ e rest, (getAll clientEvents "onServiceDiscovered").fst =
           e :: rest ∧
         ∃ services, discoveredServices e = Except.ok services ∧
           ∃ s ∈ services, isFixtureService s = true ∧
             coversFixtureUuids s = true) ∧
    (countName clientEvents "onServiceDiscovered" ≠ 1 →
       (DiscoverServices clientEvents).snd = Except.error
         (Failure.assertionError
           "expected exactly one onServiceDiscovered event")) := by
  constructor
  · intro h
    unfold DiscoverServices discoverServicesEval at h
    dsimp only at h
    split at h
    · next hlen =>
        have hcount : countName clientEvents "onServiceDiscovered" = 1 := by
          have := beq_iff_eq.mp hlen
          simpa [countName, getAll] using this
        refine ⟨hcount, ?_⟩
        split at h
        · simp at h
        · next firstResult rest2 hlist =>
            split at h
            · simp at h
            · next status hstat =>
                split at h
                · next hgs =>
                    split at h
                    · simp at h
                    · next sv hsv =>
                        split at h
                        · simp at h
                        · next services hits =>
                            split at h
                            · simp at h
                            · next found hloop =>
                                have hfound : found = true := by
                                  by_contra hf
                                  rw [Bool.not_eq_true] at hf
                                  subst hf
                                  simp [assertTrue] at h
                                subst hfound
                                rcases discoverServicesLoop_ok_true
                                    hloop with hf | ⟨s, hs, hone, htwo⟩
                                · simp at hf
                                · refine ⟨firstResult, rest2, hlist,
                                    services, ?_, s, hs, hone, htwo⟩
                                  unfold discoveredServices
                                  rw [hsv]
                                  exact hits
                · simp at h
    · simp at h
  · intro hne
    have hlen : (getAll clientEvents "onServiceDiscovered").fst.length
        ≠ 1 := fun hc => hne (by simpa [countName, getAll] using hc)
    have hfalse : ((getAll clientEvents "onServiceDiscovered").fst.length
        == 1) = false := by
      cases hb : ((getAll clientEvents
          "onServiceDiscovered").fst.length == 1)
      · rfl
      · exact absurd (beq_iff_eq.mp hb) hlen
    unfold DiscoverServices discoverServicesEval
    dsimp only
    rw [hfalse]
    simp

theorem isRequired_eq_hasEntry (fx : Fixtures) (e : Event) :
    IsRequiredScanResult fx e =
      hasServiceEntry e TEST_BLE_SERVICE_UUID fx.DATA := by
  unfold IsRequiredScanResult hasServiceEntry resultServices dictGet
  cases lookupKey e.data "result" with
  | none => rfl
  | some result =>
      dsimp only
      cases result.sub "ScanRecord" with
      | error err => rfl
      | ok record =>
          dsimp only
          cases record.sub "Services" with
          | error err => rfl
          | ok sv =>
              dsimp only
              cases sv.items with
              | error err => rfl
              | ok xs => rfl

theorem waitForEvent_ok {q : List Event} {name : String}
    {pred : Event → Bool} {t : Nat} {e : Event}
    (h : waitForEvent q name pred t = Except.ok e) :
    e ∈ q ∧ e.name = name ∧ pred e = true := by
  unfold waitForEvent at h
  cases hf : q.find? (fun x => x.name == name && pred x) with
  | none => rw [hf] at h; simp at h
  | some e0 =>
      rw [hf] at h
      simp only [Except.ok.injEq] at h
      subst h
      have hmem := List.mem_of_find?_eq_some hf
      have hp := List.find?_some hf
      simp only [Bool.and_eq_true, beq_iff_eq] at hp
      exact ⟨hmem, hp.1, hp.2⟩

theorem scanLoop_ok_address (fx : Fixtures) (result : Value) :
    ∀ {services : List Value} {s0 r0 : Bool} {a0 : Option Value}
      {s r : Bool} {a : Option Value},
      scanLoop fx result services s0 r0 a0 = Except.ok (s, r, a) →
      (s = s0 ∧ a = a0) ∨
        (s = true ∧ ∃ av, deviceAddress result = Except.ok av ∧
          a = some av) := by
  intro services
  induction services with
  | nil =>
      intro s0 r0 a0 s r a h
      unfold scanLoop at h
      simp only [Except.ok.injEq, Prod.mk.injEq] at h
      exact Or.inl ⟨h.1.symm, h.2.2.symm⟩
  | cons service rest ih =>
      intro s0 r0 a0 s r a h
      unfold scanLoop at h
      split at h
      · simp at h
      · next u hu =>
          split at h
          · simp at h
          · next isService heqS =>
              split at h
              · simp at h
              · next s2 a2 heqA =>
                  split at h
                  · simp at h
                  · next isResponse heqR =>
                      by_cases his : isService = true
                      · rw [his] at heqA
                        simp only [if_true] at heqA
                        split at heqA
                        · simp at heqA
                        · next device hdev =>
                            split at heqA
                            · simp at heqA
                            · next av haddr =>
                                simp only [Except.ok.injEq,
                                  Prod.mk.injEq] at heqA
                                rcases heqA with ⟨hs2, ha2⟩
                                rcases ih h with ⟨hs, ha⟩ | ⟨hs, hex⟩
                                · right
                                  refine ⟨by rw [hs, ← hs2], av, ?_,
                                    by rw [ha, ← ha2]⟩
                                  unfold deviceAddress
                                  rw [hdev]
                                  exact haddr
                                · exact Or.inr ⟨hs, hex⟩
                      · rw [Bool.not_eq_true] at his
                        rw [his] at heqA
                        simp only [Bool.false_eq_true, if_false,
                          Except.ok.injEq, Prod.mk.injEq] at heqA
                        rcases heqA with ⟨hs2, ha2⟩
                        rcases ih h with ⟨hs, ha⟩ | ⟨hs, hex⟩
                        · exact Or.inl ⟨by rw [hs, ← hs2],
                            by rw [ha, ← ha2]⟩
                        · exact Or.inr ⟨hs, hex⟩

theorem scanLoop_ok_response (fx : Fixtures) (result : Value) :
    ∀ {services : List Value} {s0 r0 : Bool} {a0 : Option Value}
      {s r : Bool} {a : Option Value},
      scanLoop fx result services s0 r0 a0 = Except.ok (s, r, a) →
      r = true →
      r0 = true ∨ ∃ svc ∈ services,
        serviceEntryMatches TEST_SCAN_RESPONSE_UUID
          fx.SCAN_RESPONSE_DATA svc = true := by
  intro services
  induction services with
  | nil =>
      intro s0 r0 a0 s r a h hr
      unfold scanLoop at h
      simp only [Except.ok.injEq, Prod.mk.injEq] at h
      left
      rw [h.2.1]
      exact hr
  | cons service rest ih =>
      intro s0 r0 a0 s r a h hr
      unfold scanLoop at h
      split at h
      · simp at h
      · next u hu =>
          split at h
          · simp at h
          · next isService heqS =>
              split at h
              · simp at h
              · next s2 a2 heqA =>
                  split at h
                  · simp at h
                  · next isResponse heqR =>
                      rcases ih h hr with hor | ⟨svc, hmem, hsvc⟩
                      · rcases Bool.or_eq_true_iff.mp hor with h0 | hresp
                        · exact Or.inl h0
                        · right
                          refine ⟨service,
                            List.mem_cons_self service rest, ?_⟩
                          subst hresp
                          split at heqR
                          · next hc =>
                              split at heqR
                              · simp at heqR
                              · next d hd =>
                                  simp only [Except.ok.injEq] at heqR
                                  unfold serviceEntryMatches
                                  rw [hu, hd]
                                  simp [hc, ← heqR]
                          · next hc =>
                              simp only [Except.ok.injEq] at heqR
                              simp at heqR
                      · exact Or.inr ⟨svc,
                          List.mem_cons_of_mem service hmem, hsvc⟩

theorem discoverScan_ok {fx : Fixtures} {scanEvents : List Event}
    {out : DiscoverOut}
    (h : discoverScan fx scanEvents = Except.ok out) :
    ∃ e, waitForEvent scanEvents "onScanResult" (IsRequiredScanResult fx)
        SCAN_TIMEOUT = Except.ok e ∧
      ∃ result, dictGet e.data "result" = Except.ok result ∧
        hasServiceEntry e TEST_SCAN_RESPONSE_UUID
          fx.SCAN_RESPONSE_DATA = true ∧
        ∃ av, deviceAddress result = Except.ok av ∧
          out.connect_to_address = some av := by
  unfold discoverScan at h
  split at h
  · simp at h
  · next scanResult hwf =>
      split at h
      · simp at h
      · next result hres =>
          split at h
          · simp at h
          · next timeMs hms =>
              split at h
              · simp at h
              · next record hrec =>
                  split at h
                  · simp at h
                  · next servicesVal hsv =>
                      split at h
                      · simp at h
                      · next services hits =>
                          split at h
                          · simp at h
                          · next scanSuccess scanResponseFound addr
                                hloop =>
                              split at h
                              · simp at h
                              · next u1 hsucc =>
                                  split at h
                                  · simp at h
                                  · next u2 hresp =>
                                      simp only [Except.ok.injEq] at h
                                      subst h
                                      have hs :=
                                        assertTrue_ok.mp hsucc
                                      have hrr :=
                                        assertTrue_ok.mp hresp
                                      subst hs
                                      subst hrr
                                      refine ⟨scanResult, hwf, result,
                                        hres, ?_, ?_⟩
                                      · unfold hasServiceEntry
                                          resultServices
                                        rw [hres]
                                        dsimp only
                                        rw [hrec]
                                        dsimp only
                                        rw [hsv]
                                        dsimp only
                                        rw [hits]
                                        rcases scanLoop_ok_response fx
                                            result hloop rfl with
                                          hf | ⟨svc, hmem, hm⟩
                                        · simp at hf
                                        · exact List.any_eq_true.mpr
                                            ⟨svc, hmem, hm⟩
                                      · rcases scanLoop_ok_address fx
                                            result hloop with
                                          ⟨hf, _⟩ | ⟨_, av, hav, ha⟩
                                        · simp at hf
                                        · exact ⟨av, hav, ha⟩

theorem Discover_ok_scan {fx : Fixtures} {inp : DiscoverInput}
    {out : DiscoverOut}
    (h : (Discover fx inp).snd = Except.ok out) :
    discoverScan fx inp.scanEvents = Except.ok out := by
  unfold Discover at h
  split at h
  · simp at h
  · exact h

/-- C4: a successful Discover phase selected, within the scan window, an
onScanResult event carrying a service entry with the fixture service UUID
and advertise payload, and the same event also carries a distinct
scan-response entry with the scan response UUID and payload; the phase
fails when the queue offers no such event. -/
theorem discover_requires_both_entries (fx : Fixtures)
    (inp : DiscoverInput) (out : DiscoverOut) :
    (Discover fx inp).snd = Except.ok out →
      ∃ e ∈ inp.scanEvents, e.name = "onScanResult" ∧
        hasServiceEntry e TEST_BLE_SERVICE_UUID fx.DATA = true ∧
        hasServiceEntry e TEST_SCAN_RESPONSE_UUID
          fx.SCAN_RESPONSE_DATA = true ∧
        waitForEvent inp.scanEvents "onScanResult"
          (IsRequiredScanResult fx) SCAN_TIMEOUT = Except.ok e := by
  intro h
  obtain ⟨e, hwf, result, hres, hresp, av, hav, ha⟩ :=
    discoverScan_ok (Discover_ok_scan h)
  obtain ⟨hmem, hname, hpred⟩ := waitForEvent_ok hwf
  rw [isRequired_eq_hasEntry] at hpred
  exact ⟨e, hmem, hname, hpred, hresp, hwf⟩

/-- C3: when every attempt window elapses without an onStartSuccess
event, Discover issues the start command exactly twice and raises
TimeoutError only after the final attempt; when only the first window
misses, the loop retries, no TimeoutError is raised, and control
proceeds to the scan evaluation. -/
theorem discover_retry_exhaustion (fx : Fixtures) (inp : DiscoverInput) :
    ((∀ n, hasEvent (inp.attemptEvents n) "onStartSuccess" = false) →
       (Discover fx inp).fst =
         [Command.bleStartAdvertising, Command.bleStartScan,
          Command.bleStartAdvertising, Command.bleStartScan] ∧
       countStartAdvertising (Discover fx inp).fst = 2 ∧
       (Discover fx inp).snd =
         Except.error (Failure.timeoutError "onStartSuccess")) ∧
    (hasEvent (inp.attemptEvents 0) "onStartSuccess" = false →
       hasEvent (inp.attemptEvents 1) "onStartSuccess" = true →
       (Discover fx inp).snd = discoverScan fx inp.scanEvents) := by
  constructor
  · intro h
    have e0 := h 0
    have e1 := h 1
    have hadv : advertiseAttempts inp.attemptEvents 0 max_attempts [] =
        ([Command.bleStartAdvertising, Command.bleStartScan,
          Command.bleStartAdvertising, Command.bleStartScan],
         Except.error (Failure.timeoutError "onStartSuccess")) := by
      unfold max_attempts
      unfold advertiseAttempts
      rw [e0]
      simp only [Bool.false_eq_true, if_false, Nat.lt_irrefl,
        zero_lt_one, if_true]
      unfold advertiseAttempts
      rw [e1]
      simp
    refine ⟨?_, ?_, ?_⟩
    · unfold Discover
      rw [hadv]
    · unfold Discover
      rw [hadv]
      rfl
    · unfold Discover
      rw [hadv]
  · intro e0 e1
    have hadv : (advertiseAttempts inp.attemptEvents 0 max_attempts
        []).snd = Except.ok () := by
      unfold max_attempts
      unfold advertiseAttempts
      rw [e0]
      simp only [Bool.false_eq_true, if_false, zero_lt_one, if_true]
      unfold advertiseAttempts
      rw [e1]
      simp [advertiseAttempts]
    unfold Discover
    split
    · next log e heq =>
        rw [heq] at hadv
        simp at hadv
    · rfl

/-- The attempt events of a run whose first attempt succeeds and whose
second attempt window is empty. -/
def firstAttemptSucceeds : Nat → List Event :=
  fun n => if n = 0 then [startSuccessEvent] else []

/-- C2: the source loop never breaks out of the attempt loop on success,
so even when the very first attempt observes onStartSuccess inside its
window, Discover issues bleStartAdvertising a second time; and when that
re-issued second attempt observes nothing, the phase even raises
TimeoutError despite the first attempt having succeeded.  This
contradicts the claim that a new attempt is made only when the preceding
window elapsed without success. -/
theorem discover_reissues_start_after_success :
    hasEvent (firstAttemptSucceeds 0) "onStartSuccess" = true ∧
    (Discover specFixtures ⟨firstAttemptSucceeds, [goodScanEvent]⟩).fst =
      [Command.bleStartAdvertising, Command.bleStartScan,
       Command.bleStartAdvertising, Command.bleStartScan] ∧
    countStartAdvertising
      (Discover specFixtures
        ⟨firstAttemptSucceeds, [goodScanEvent]⟩).fst = 2 ∧
    (Discover specFixtures ⟨firstAttemptSucceeds, [goodScanEvent]⟩).snd =
      Except.error (Failure.timeoutError "onStartSuccess") :=
  ⟨rfl, rfl, rfl, rfl⟩

theorem advertiseAttempts_log_mem :
    ∀ (r : Nat) (env : Nat → List Event) (n : Nat) (log0 : List Command)
      (c : Command),
      c ∈ (advertiseAttempts env n r log0).fst →
      c ∈ log0 ∨ c = Command.bleStartAdvertising ∨
        c = Command.bleStartScan := by
  intro r
  induction r with
  | zero =>
      intro env n log0 c hc
      exact Or.inl hc
  | succ r ih =>
      intro env n log0 c hc
      unfold advertiseAttempts at hc
      have hstep : ∀ (hc2 : c ∈ (advertiseAttempts env (n + 1) r
          (log0 ++ [Command.bleStartAdvertising,
            Command.bleStartScan])).fst),
          c ∈ log0 ∨ c = Command.bleStartAdvertising ∨
            c = Command.bleStartScan := by
        intro hc2
        rcases ih env (n + 1) _ c hc2 with hmem | hr
        · rcases List.mem_append.mp hmem with h1 | h2
          · exact Or.inl h1
          · simp only [List.mem_cons, List.mem_singleton,
              List.not_mem_nil, or_false] at h2
            exact Or.inr h2
        · exact Or.inr hr
      by_cases hs : hasEvent (env n) "onStartSuccess" = true
      · simp only [hs, if_true] at hc
        exact hstep hc
      · rw [Bool.not_eq_true] at hs
        simp only [hs, Bool.false_eq_true, if_false] at hc
        by_cases hr0 : 0 < r
        · simp only [hr0, if_true] at hc
          exact hstep hc
        · have hr1 : r = 0 := by omega
          subst hr1
          simp only [Nat.lt_irrefl, if_false] at hc
          rcases List.mem_append.mp hc with h1 | h2
          · exact Or.inl h1
          · simp only [List.mem_cons, List.mem_singleton,
              List.not_mem_nil, or_false] at h2
            exact Or.inr h2

theorem Discover_log_mem {fx : Fixtures} {inp : DiscoverInput}
    {c : Command} (hc : c ∈ (Discover fx inp).fst) :
    c = Command.bleStartAdvertising ∨ c = Command.bleStartScan := by
  unfold Discover at hc
  split at hc
  · next log e heq =>
      have : c ∈ (advertiseAttempts inp.attemptEvents 0 max_attempts
          []).fst := by rw [heq]; exact hc
      rcases advertiseAttempts_log_mem _ _ _ _ _ this with h0 | hr
      · simp at h0
      · exact hr
  · next log u heq =>
      have : c ∈ (advertiseAttempts inp.attemptEvents 0 max_attempts
          []).fst := by rw [heq]; exact hc
      rcases advertiseAttempts_log_mem _ _ _ _ _ this with h0 | hr
      · simp at h0
      · exact hr

theorem Connect_log_mem {inp : ConnectInput} {c : Command}
    (hc : c ∈ (Connect inp).fst) :
    c = Command.bleStartServer ∨
      ∃ a, inp.connect_to_address = some a ∧
        c = Command.bleConnectGatt a := by
  unfold Connect at hc
  split at hc
  · simp only [List.mem_singleton] at hc
    exact Or.inl hc
  · split at hc
    · simp only [List.mem_singleton] at hc
      exact Or.inl hc
    · next addr haddr =>
        split at hc
        · simp only [List.cons_append, List.nil_append, List.mem_cons,
            List.mem_singleton, List.not_mem_nil, or_false] at hc
          rcases hc with h1 | h2
          · exact Or.inl h1
          · exact Or.inr ⟨addr, haddr, h2⟩
        · simp only [List.cons_append, List.nil_append, List.mem_cons,
            List.mem_singleton, List.not_mem_nil, or_false] at hc
          rcases hc with h1 | h2
          · exact Or.inl h1
          · exact Or.inr ⟨addr, haddr, h2⟩

/-- C10: a successful Discover stores on the scanner exactly the Device
Address of the scan result selected by the matched-service wait; Connect,
when its server half succeeds, issues bleConnectGatt with exactly the
stored address; with no stored address Connect issues no connect command
and fails; and in the composed session any issued bleConnectGatt carries
the address a successful Discover stored. -/
theorem discover_address_flows_to_connect :
    (∀ (fx : Fixtures) (inp : DiscoverInput) (out : DiscoverOut),
       (Discover fx inp).snd = Except.ok out →
       ∃ e result av,
         waitForEvent inp.scanEvents "onScanResult"
           (IsRequiredScanResult fx) SCAN_TIMEOUT = Except.ok e ∧
         dictGet e.data "result" = Except.ok result ∧
         deviceAddress result = Except.ok av ∧
         out.connect_to_address = some av) ∧
    (∀ (inp : ConnectInput) (a : Value) (q : List Event),
       inp.connect_to_address = some a →
       connectServer inp.serverEvents = Except.ok q →
       Command.bleConnectGatt a ∈ (Connect inp).fst) ∧
    (∀ inp : ConnectInput, inp.connect_to_address = none →
       (∀ b, Command.bleConnectGatt b ∉ (Connect inp).fst) ∧
       ∃ err, (Connect inp).snd = Except.error err) ∧
    (∀ (fx : Fixtures) (dinp : DiscoverInput)
       (serverEvents clientEvents : List Event) (b : Value),
       Command.bleConnectGatt b ∈
         (DiscoverThenConnect fx dinp serverEvents clientEvents).fst →
       ∃ out, (Discover fx dinp).snd = Except.ok out ∧
         out.connect_to_address = some b) := by
  refine ⟨?_, ?_, ?_, ?_⟩
  · intro fx inp out h
    obtain ⟨e, hwf, result, hres, hresp, av, hav, ha⟩ :=
      discoverScan_ok (Discover_ok_scan h)
    exact ⟨e, result, av, hwf, hres, hav, ha⟩
  · intro inp a q haddr hsrv
    unfold Connect
    rw [hsrv]
    dsimp only
    rw [haddr]
    split
    · next heq => simp at heq
    · next result heq =>
        have hra : result = a := by
          injection heq with h
          exact h.symm
        subst hra
        split
        · simp
        · simp
  · intro inp haddr
    unfold Connect
    split
    · next e heq =>
        exact ⟨fun b => by simp, e, rfl⟩
    · next q heq =>
        rw [haddr]
        exact ⟨fun b => by simp, Failure.attributeError
          "connect_to_address", rfl⟩
  · intro fx dinp serverEvents clientEvents b hc
    unfold DiscoverThenConnect at hc
    split at hc
    · next log e heq =>
        have hmem : Command.bleConnectGatt b ∈ (Discover fx dinp).fst :=
          by rw [heq]; exact hc
        rcases Discover_log_mem hmem with h1 | h2
        · cases h1
        · cases h2
    · next log out heq =>
        rcases List.mem_append.mp hc with hmem | hmem
        · have hmem2 : Command.bleConnectGatt b ∈
              (Discover fx dinp).fst := by rw [heq]; exact hmem
          rcases Discover_log_mem hmem2 with h1 | h2
          · cases h1
          · cases h2
        · rcases Connect_log_mem hmem with h1 | ⟨a, ha, hb⟩
          · cases h1
          · simp only [Command.bleConnectGatt.injEq] at hb
            subst hb
            exact ⟨out, by rw [heq], ha⟩

/-- C8 counterexample: the server-side connection-state wait of Connect
(ble_utils.py line 377) passes no timeout argument, so not every
blocking wait carries an explicit timeout. -/
theorem connect_server_wait_has_no_timeout :
    serverConnectionWait ∈ harnessWaits ∧
    serverConnectionWait.timeoutSeconds = none ∧
    ¬ (∀ w ∈ harnessWaits, w.timeoutSeconds.isSome = true) := by
  refine ⟨by decide, rfl, fun hall => ?_⟩
  have := hall serverConnectionWait (by decide)
  simp [serverConnectionWait] at this

/-- C8 (amended): every blocking wait of the harness except the
server-side connection-state wait of Connect at ble_utils.py line 377
passes an explicit finite timeout; that one call relies on the library
default instead. -/
theorem harness_waits_explicit_timeout (w : WaitSpec)
    (hw : w ∈ harnessWaits) (hne : w ≠ serverConnectionWait) :
    w.timeoutSeconds.isSome = true := by
  fin_cases hw
  all_goals first
    | rfl
    | exact absurd rfl hne

/-- C8 witness: the scan-result wait of Discover carries the explicit
scan window. -/
theorem harness_waits_explicit_timeout_witness :
    (⟨"Discover", "onScanResult", some SCAN_TIMEOUT⟩ :
      WaitSpec).timeoutSeconds.isSome = true :=
  harness_waits_explicit_timeout
    ⟨"Discover", "onScanResult", some SCAN_TIMEOUT⟩
    (by decide) (by decide)

/-- C1 witness: the good Connect run has exactly one state-change event,
and a duplicated state-change event makes the client evaluation fail
with the duplicate assertion. -/
theorem connect_state_change_exactly_once_witness :
    countName goodConnectInput.clientEvents "onConnectionStateChange"
      = 1 ∧
    connectClient [clientConnectedEvent, clientConnectedEvent] =
      Except.error (Failure.assertionError
        "Got unexpected onConnectionStateChange events") :=
  ⟨((connect_state_change_exactly_once goodConnectInput).1 rfl).1,
   ((connect_state_change_exactly_once
      ⟨goodConnectInput.connect_to_address, goodConnectInput.serverEvents,
       [clientConnectedEvent, clientConnectedEvent]⟩).2 (by decide)).1⟩

/-- C3 witness: empty attempt windows exhaust both attempts and raise
TimeoutError, while a miss followed by a success proceeds to the scan. -/
theorem discover_retry_exhaustion_witness :
    (Discover specFixtures ⟨fun _ => [], []⟩).fst =
      [Command.bleStartAdvertising, Command.bleStartScan,
       Command.bleStartAdvertising, Command.bleStartScan] ∧
    countStartAdvertising
      (Discover specFixtures ⟨fun _ => [], []⟩).fst = 2 ∧
    (Discover specFixtures ⟨fun _ => [], []⟩).snd =
      Except.error (Failure.timeoutError "onStartSuccess") ∧
    (Discover specFixtures ⟨fun n => if n = 0 then [] else
      [startSuccessEvent], [goodScanEvent]⟩).snd =
      discoverScan specFixtures [goodScanEvent] := by
  have h1 := (discover_retry_exhaustion specFixtures
    ⟨fun _ => [], []⟩).1 (fun n => rfl)
  have h2 := (discover_retry_exhaustion specFixtures
    ⟨fun n => if n = 0 then [] else [startSuccessEvent],
     [goodScanEvent]⟩).2 rfl rfl
  exact ⟨h1.1, h1.2.1, h1.2.2, h2⟩

/-- C4 witness: the good Discover run selected the good scan event, which
carries both the advertise service entry and the scan response entry. -/
theorem discover_requires_both_entries_witness :
    ∃ e ∈ goodDiscoverInput.scanEvents, e.name = "onScanResult" ∧
      hasServiceEntry e TEST_BLE_SERVICE_UUID specFixtures.DATA = true ∧
      hasServiceEntry e TEST_SCAN_RESPONSE_UUID
        specFixtures.SCAN_RESPONSE_DATA = true ∧
      waitForEvent goodDiscoverInput.scanEvents "onScanResult"
        (IsRequiredScanResult specFixtures) SCAN_TIMEOUT =
        Except.ok e :=
  discover_requires_both_entries specFixtures goodDiscoverInput
    goodDiscoverOut rfl

/-- C5 witness: the good Write run consumed both write requests with the
sent payloads and two completion events; with no queued write request
the phase times out on the receiver side, and with no completion event
it cannot succeed. -/
theorem write_request_precedes_completion_witness :
    ((∃ e1 r1, popFirst "onCharacteristicWriteRequest"
          goodWriteInput.serverEvents = some (e1, r1) ∧
        checkEqStr e1.data "Data" specFixtures.WRITE_DATA = true ∧
        ∃ e2 r2, popFirst "onCharacteristicWriteRequest" r1 =
            some (e2, r2) ∧
          checkEqStr e2.data "Data" specFixtures.SECOND_WRITE_DATA =
            true) ∧
      2 ≤ countName goodWriteInput.clientEvents
        "onCharacteristicWrite") ∧
    (WriteCharacteristic specFixtures
      ⟨true, true, [], goodWriteInput.clientEvents⟩).snd =
      Except.error (Failure.timeoutError
        "onCharacteristicWriteRequest") ∧
    (WriteCharacteristic specFixtures
      ⟨true, true, goodWriteInput.serverEvents, []⟩).snd ≠
      Except.ok () :=
  ⟨(write_request_precedes_completion specFixtures goodWriteInput).1 rfl,
   (write_request_precedes_completion specFixtures
     ⟨true, true, [], goodWriteInput.clientEvents⟩).2.1 rfl rfl,
   (write_request_precedes_completion specFixtures
     ⟨true, true, goodWriteInput.serverEvents, []⟩).2.2 rfl⟩

/-- C6 witness: the good Read run started all three reads and consumed
the three read events with the fixture payloads in order. -/
theorem read_roundtrip_payloads_witness :
    goodReadInput.readStart1 = true ∧ goodReadInput.readStart2 = true ∧
    goodReadInput.readStart3 = true ∧
    ∃ e1 q2, popFirst "onCharacteristicRead" goodReadInput.clientEvents =
        some (e1, q2) ∧
      checkEqStr e1.data STATUS GATT_SUCCESS = true ∧
      checkEqStr e1.data "Data" specFixtures.READ_DATA = true ∧
      ∃ e2 q3, popFirst "onCharacteristicRead" q2 = some (e2, q3) ∧
        checkEqStr e2.data STATUS GATT_SUCCESS = true ∧
        checkEqStr e2.data "Data" specFixtures.SECOND_READ_DATA = true ∧
        ∃ e3 q4, popFirst "onCharacteristicRead" q3 = some (e3, q4) ∧
          checkEqStr e3.data STATUS GATT_SUCCESS = true ∧
          checkEqStr e3.data "Data" specFixtures.THIRD_READ_DATA =
            true :=
  read_roundtrip_payloads specFixtures goodReadInput rfl

/-- C7 witness: one well-formed discovery event with one extra
characteristic UUID passes, and an empty queue fails the cardinality
assertion. -/
theorem discover_services_exactly_once_superset_witness :
    (countName [serviceDiscoveredEvent] "onServiceDiscovered" = 1 ∧
     ∃ e rest, (getAll [serviceDiscoveredEvent]
         "onServiceDiscovered").fst = e :: rest ∧
       ∃ services, discoveredServices e = Except.ok services ∧
         ∃ s ∈ services, isFixtureService s = true ∧
           coversFixtureUuids s = true) ∧
    (DiscoverServices ([] : List Event)).snd =
      Except.error (Failure.assertionError
        "expected exactly one onServiceDiscovered event") :=
  ⟨(discover_services_exactly_once_superset
      [serviceDiscoveredEvent]).1 rfl,
   (discover_services_exactly_once_superset []).2 (by decide)⟩

/-- C9 witness: replacing the failure-status completion events of the
good Write run by success-status ones leaves the verdict unchanged. -/
theorem write_complete_event_occurrence_only_witness :
    (WriteCharacteristic specFixtures ⟨true, true,
      goodWriteInput.serverEvents,
      [writeCompleteEvent "GATT_FAILURE",
       writeCompleteEvent "GATT_FAILURE"]⟩).snd =
    (WriteCharacteristic specFixtures ⟨true, true,
      goodWriteInput.serverEvents,
      [writeCompleteEvent "GATT_SUCCESS",
       writeCompleteEvent "GATT_SUCCESS"]⟩).snd :=
  write_complete_event_occurrence_only.1 specFixtures true true
    goodWriteInput.serverEvents _ _ rfl

/-- C10 witness: the good session stores the advertised device address
from the selected scan result, Connect issues bleConnectGatt with that
address, an unset address issues no connect command, and the composed
session connects only to the discovered address. -/
theorem discover_address_flows_to_connect_witness :
    (∃ e result av, waitForEvent goodDiscoverInput.scanEvents
        "onScanResult" (IsRequiredScanResult specFixtures)
        SCAN_TIMEOUT = Except.ok e ∧
      dictGet e.data "result" = Except.ok result ∧
      deviceAddress result = Except.ok av ∧
      goodDiscoverOut.connect_to_address = some av) ∧
    Command.bleConnectGatt (Value.str "11:22:33:44:55:66") ∈
      (Connect goodConnectInput).fst ∧
    (∀ b, Command.bleConnectGatt b ∉
      (Connect ⟨none, [], []⟩).fst) ∧
    ∃ out, (Discover specFixtures goodDiscoverInput).snd =
        Except.ok out ∧
      out.connect_to_address = some (Value.str "11:22:33:44:55:66") := by
  refine ⟨?_, ?_, ?_, ?_⟩
  · exact discover_address_flows_to_connect.1 specFixtures
      goodDiscoverInput goodDiscoverOut rfl
  · exact discover_address_flows_to_connect.2.1 goodConnectInput
      (Value.str "11:22:33:44:55:66") [serverConnectedEvent] rfl rfl
  · exact (discover_address_flows_to_connect.2.2.1
      ⟨none, [], []⟩ rfl).1
  · refine discover_address_flows_to_connect.2.2.2 specFixtures
      goodDiscoverInput [serviceAddedEvent, serverConnectedEvent]
      [clientConnectedEvent] (Value.str "11:22:33:44:55:66") ?_
    have hlog : (DiscoverThenConnect specFixtures goodDiscoverInput
        [serviceAddedEvent, serverConnectedEvent]
        [clientConnectedEvent]).fst =
      [Command.bleStartAdvertising, Command.bleStartScan,
       Command.bleStartAdvertising, Command.bleStartScan,
       Command.bleStartServer,
       Command.bleConnectGatt (Value.str "11:22:33:44:55:66")] := rfl
    rw [hlog]
    simp
